import Mathlib

/-!
Verification of the Python debug-adapter resolution core
(`crates/dap_adapters/src/python.rs`): a shallow embedding of the data
model, the request-argument builder, the installer's layout
normalization and the binary-resolution orchestrator, with theorems
settling the specified properties.
-/

namespace PyDap

/-- A JSON value, as built by the `json!` macro and `serde_json`
map insertion in `request_args`. Objects keep insertion order as an
association list. -/
inductive Json where
  | str (s : String)
  | nat (n : Nat)
  | bool (b : Bool)
  | arr (xs : List Json)
  | obj (kvs : List (String × Json))
  deriving Repr

/-- `serde_json::Map::insert`: replace the value when the key is
present, otherwise append the pair. -/
def insertPairs : List (String × Json) → String → Json → List (String × Json)
  | [], k, v => [(k, v)]
  | (k', v') :: rest, k, v =>
    if k' = k then (k, v) :: rest else (k', v') :: insertPairs rest k v

/-- `map.insert(key, value)` on the object built in `request_args`. -/
def Json.insertKey : Json → String → Json → Json
  | .obj kvs, k, v => .obj (insertPairs kvs k v)
  | j, _, _ => j

/-- Look a key up in a JSON object. -/
def Json.getKey : Json → String → Option Json
  | .obj kvs, k => (kvs.find? (fun p => p.1 = k)).map Prod.snd
  | _, _ => none

/-- `AttachRequest`: the attach-mode task fields. -/
structure AttachRequest where
  process_id : Nat
  deriving Repr, DecidableEq

/-- `LaunchRequest`: the launch-mode task fields. -/
structure LaunchRequest where
  program : String
  args : List String
  env : List (String × String)
  cwd : Option String
  deriving Repr, DecidableEq

/-- `DebugRequest`: launch or attach. -/
inductive DebugRequest where
  | launch (l : LaunchRequest)
  | attach (a : AttachRequest)
  deriving Repr, DecidableEq

/-- `TcpArgumentsTemplate`: the caller's optional tcp_connection
override; every field optional. -/
structure TcpArgumentsTemplate where
  host : Option String := none
  port : Option Nat := none
  timeout : Option Nat := none
  deriving Repr, DecidableEq

/-- `TcpArgumentsTemplate::default()`: all fields absent. -/
def TcpArgumentsTemplate.default : TcpArgumentsTemplate := {}

/-- `DebugTaskDefinition`: caller-supplied intent for one session. -/
structure DebugTaskDefinition where
  request : DebugRequest
  stop_on_entry : Option Bool
  tcp_connection : Option TcpArgumentsTemplate
  deriving Repr, DecidableEq

/-- The request discriminant of `StartDebuggingRequestArguments`. -/
inductive StartDebuggingRequestKind where
  | launch
  | attach
  deriving Repr, DecidableEq

/-- `DebugRequest::to_dap`. -/
def DebugRequest.to_dap : DebugRequest → StartDebuggingRequestKind
  | .launch _ => .launch
  | .attach _ => .attach

/-- `StartDebuggingRequestArguments`. -/
structure StartDebuggingRequestArguments where
  configuration : Json
  request : StartDebuggingRequestKind
  deriving Repr

/-- `LaunchRequest::env_json()`: the task environment as a JSON
object. -/
def LaunchRequest.env_json (l : LaunchRequest) : Json :=
  .obj (l.env.map (fun p => (p.1, Json.str p.2)))

/-- `PythonDebugAdapter::request_args` (python.rs lines 19-52):
builds the protocol payload from the task definition. -/
def request_args (config : DebugTaskDefinition) : StartDebuggingRequestArguments :=
  let args : Json := .obj
    [("request", .str (match config.request with
        | .launch _ => "launch"
        | .attach _ => "attach")),
     ("subProcess", .bool true),
     ("redirectOutput", .bool true)]
  let args : Json :=
    match config.request with
    | .attach attach => args.insertKey "processId" (.nat attach.process_id)
    | .launch launch =>
      let args := args.insertKey "program" (.str launch.program)
      let args := args.insertKey "args" (.arr (launch.args.map .str))
      let args := if launch.env.isEmpty then args
                  else args.insertKey "env" launch.env_json
      let args := match config.stop_on_entry with
        | some stop_on_entry => args.insertKey "stopOnEntry" (.bool stop_on_entry)
        | none => args
      match launch.cwd with
      | some cwd => args.insertKey "cwd" (.str cwd)
      | none => args
  { configuration := args, request := config.request.to_dap }

/-- The Rust `str::starts_with(pat)` predicate: the pattern heads the
character sequence of the string. -/
def startsWithStr (s pat : String) : Bool :=
  pat.data.isPrefixOf s.data

/-- `PythonDebugAdapter::ADAPTER_NAME`. -/
def ADAPTER_NAME : String := "Debugpy"

/-- `PythonDebugAdapter::ADAPTER_PATH`: the fixed relative subpath of
the adapter entrypoint inside the installed directory. -/
def ADAPTER_PATH : String := "src/debugpy/adapter"

/-- `PythonDebugAdapter` (python.rs lines 8-11): the instance state is
the write-once `checked` flag (`OnceLock<()>`), empty on construction. -/
structure PythonDebugAdapter where
  checked : Bool := false
  deriving Repr, DecidableEq

/-- The error taxonomy surfaced by the resolution core. `network`
carries the version-fetch failure, `install` the download/extraction
failure; the other two are the resolver's own `anyhow!` errors. -/
inductive AdapterError where
  | network (msg : String)
  | install (msg : String)
  | notInstalled
  | interpreterNotFound
  deriving Repr, DecidableEq

/-- `AdapterVersion`: a published release descriptor. -/
structure AdapterVersion where
  tag_name : String
  url : String
  deriving Repr, DecidableEq

/-- One adapter instance's view of its external collaborators during a
resolution call: the toolchain registry result, the executable search,
and the entries of the adapters root's `Debugpy` directory. -/
structure DapDelegate where
  toolchain : Option String
  which : String → Option String
  adapterDirEntries : List String
  debugAdaptersDir : String

/-- Outcomes of the network/filesystem effects of the one-time
check-and-install pass: the version fetch and the install. -/
structure CheckEnv where
  fetchResult : Except String AdapterVersion
  installResult : AdapterVersion → Except String Unit

/-- `PathBuf::join` on string-rendered paths. -/
def pathJoin (a b : String) : String := a ++ "/" ++ b

/-- `TcpArguments`: the negotiated connection parameters. -/
structure TcpArguments where
  host : String
  port : Nat
  timeout : Nat
  deriving Repr, DecidableEq

/-- `DebugAdapterBinary`: the final immutable descriptor. -/
structure DebugAdapterBinary where
  command : String
  arguments : List String
  connection : Option TcpArguments
  cwd : Option String
  envs : List (String × String)
  request_args : StartDebuggingRequestArguments
  deriving Repr

/-- Modelled from the spec: default loopback host used by the
connection negotiator when the caller supplies none. -/
def DEFAULT_HOST : String := "127.0.0.1"

/-- Modelled from the spec: default port used by the connection
negotiator when the caller supplies none. -/
def DEFAULT_PORT : Nat := 5678

/-- Modelled from the spec: bounded default connect timeout used by
the connection negotiator when the caller supplies none. -/
def DEFAULT_TIMEOUT : Nat := 2000

/-- Modelled from the spec: `crate::configure_tcp_connection` (the
ConnectionNegotiator) is not among the sources under study; per the
spec it is pure defaulting logic with no I/O and never fails — each
present override field replaces the corresponding default, absent
fields keep defaults. -/
def configure_tcp_connection (t : TcpArgumentsTemplate) : String × Nat × Nat :=
  (t.host.getD DEFAULT_HOST, t.port.getD DEFAULT_PORT, t.timeout.getD DEFAULT_TIMEOUT)

/-- Modelled from the spec: `util::fs::find_file_name_in_dir` — a
directory scan-by-predicate over entry names, returning the first
entry whose file name satisfies the predicate. -/
def find_file_name_in_dir (entries : List String) (pred : String → Bool) : Option String :=
  entries.find? pred

/-- `BINARY_NAMES` (python.rs line 101): candidate interpreter names
in priority order. -/
def BINARY_NAMES : List String := ["python3", "python", "py"]

/-- The `for cmd in BINARY_NAMES` probe loop (python.rs lines 131-142):
first `which` hit wins, later candidates are not probed. -/
def findBinaryInPath (which : String → Option String) : List String → Option String
  | [] => none
  | cmd :: rest =>
    match which cmd with
    | some path => some path
    | none => findBinaryInPath which rest

/-- The interpreter selection of `get_installed_binary` (python.rs
lines 128-143): the active toolchain's path verbatim when registered,
otherwise the search-path probe. -/
def resolvePython (delegate : DapDelegate) : Option String :=
  match delegate.toolchain with
  | some toolchain => some toolchain
  | none => findBinaryInPath delegate.which BINARY_NAMES

/-- `PythonDebugAdapter::get_installed_binary` (python.rs lines
94-164): negotiate the connection, locate the installed directory,
resolve the interpreter and assemble the descriptor. -/
def get_installed_binary (delegate : DapDelegate) (config : DebugTaskDefinition)
    (user_installed_path : Option String) : Except AdapterError DebugAdapterBinary :=
  let tcp_connection := config.tcp_connection.getD TcpArgumentsTemplate.default
  let hpt := configure_tcp_connection tcp_connection
  let host := hpt.1
  let port := hpt.2.1
  let timeout := hpt.2.2
  let debugpy_dir? : Except AdapterError String :=
    match user_installed_path with
    | some p => .ok p
    | none =>
      match find_file_name_in_dir delegate.adapterDirEntries
          (fun file_name => startsWithStr file_name (ADAPTER_NAME ++ "_")) with
      | some file_name =>
        .ok (pathJoin (pathJoin delegate.debugAdaptersDir ADAPTER_NAME) file_name)
      | none => .error .notInstalled
  match debugpy_dir? with
  | .error e => .error e
  | .ok debugpy_dir =>
    match resolvePython delegate with
    | none => .error .interpreterNotFound
    | some command =>
      .ok { command := command,
            arguments := [pathJoin debugpy_dir ADAPTER_PATH,
                          "--port=" ++ toString port,
                          "--host=" ++ host],
            connection := some { host := host, port := port, timeout := timeout },
            cwd := none,
            envs := [],
            request_args := request_args config }

/-- The observable outcome of one `get_binary` call: the instance
state afterwards, the console messages emitted, and the result. -/
structure GetBinaryOutcome where
  adapter : PythonDebugAdapter
  console : List String
  result : Except AdapterError DebugAdapterBinary

/-- `PythonDebugAdapter::get_binary` (python.rs lines 177-193): claim
the once-flag; the winner emits the console message, fetches the
latest version (failure logged via `log_err` and swallowed) and, on a
fetched version, installs it (failure propagated by `?`); every call
then resolves via `get_installed_binary`. -/
def get_binary (self : PythonDebugAdapter) (env : CheckEnv) (delegate : DapDelegate)
    (config : DebugTaskDefinition) (user_installed_path : Option String) :
    GetBinaryOutcome :=
  if self.checked then
    { adapter := self, console := [],
      result := get_installed_binary delegate config user_installed_path }
  else
    let claimed : PythonDebugAdapter := { checked := true }
    let console := ["Checking latest version of " ++ ADAPTER_NAME ++ "..."]
    match env.fetchResult with
    | .error _ =>
      { adapter := claimed, console := console,
        result := get_installed_binary delegate config user_installed_path }
    | .ok version =>
      match env.installResult version with
      | .error msg =>
        { adapter := claimed, console := console, result := .error (.install msg) }
      | .ok _ =>
        { adapter := claimed, console := console,
          result := get_installed_binary delegate config user_installed_path }

/-- Whether the check-and-install pass blocks resolution with a
propagated error (it does exactly when the flag is still unset, the
fetch succeeds and the install fails). -/
def checkBlocks (self : PythonDebugAdapter) (env : CheckEnv) : Option AdapterError :=
  if self.checked then none
  else
    match env.fetchResult with
    | .error _ => none
    | .ok version =>
      match env.installResult version with
      | .error msg => some (.install msg)
      | .ok _ => none

/-- The varying inputs of one `get_binary` call. -/
structure CallInput where
  env : CheckEnv
  delegate : DapDelegate
  config : DebugTaskDefinition
  userPath : Option String

/-- Run a sequence of `get_binary` calls on one instance, threading
the instance state and counting the console messages emitted (one per
executed check-and-install pass). -/
def runCalls (self : PythonDebugAdapter) : List CallInput → PythonDebugAdapter × Nat
  | [] => (self, 0)
  | c :: rest =>
    let out := get_binary self c.env c.delegate c.config c.userPath
    let next := runCalls out.adapter rest
    (next.1, out.console.length + next.2)

/-- A filesystem entry, for the installer's layout normalization. -/
inductive FsEntry where
  | file (name : String)
  | dir (name : String) (children : List FsEntry)
  deriving Repr

/-- The name of a filesystem entry. -/
def FsEntry.name : FsEntry → String
  | .file n => n
  | .dir n _ => n

/-- The children of a filesystem entry (a file has none). -/
def FsEntry.children : FsEntry → List FsEntry
  | .file _ => []
  | .dir _ cs => cs

/-- Modelled from the spec: `util::fs::find_file_name_in_dir` over the
extracted version directory, returning the first entry whose name
satisfies the predicate. -/
def findEntryInDir (entries : List FsEntry) (pred : String → Bool) : Option FsEntry :=
  entries.find? (fun e => pred e.name)

/-- Modelled from the spec: `util::fs::move_folder_files_to_folder` —
recursive move-contents-then-remove-empty-directory: the wrapper's
children become entries of the destination directory and the wrapper
itself is gone. -/
def move_folder_files_to_folder (wrapper : FsEntry) (entries : List FsEntry) :
    List FsEntry :=
  entries.filter (fun e => e.name != wrapper.name) ++ wrapper.children

/-- The layout-normalization step of `install_binary` (python.rs lines
78-89), acting on the entries of the version-qualified directory left
by extraction: when a directory named with the vendor distribution
string is found, its files move up; otherwise nothing happens. -/
def install_binary_normalize (entries : List FsEntry) : List FsEntry :=
  match findEntryInDir entries (fun file_name => startsWithStr file_name "microsoft-debugpy-") with
  | some debugpy_dir => move_folder_files_to_folder debugpy_dir entries
  | none => entries

/-! Concrete sample inputs used by witnesses and counterexamples. -/

/-- An attach task: process id 4242, no stop-on-entry, no tcp override. -/
def cfgAttachSample : DebugTaskDefinition := ⟨.attach ⟨4242⟩, none, none⟩

/-- A launch task that specifies a working directory, a non-empty
environment and an explicit stop-on-entry value. -/
def cfgLaunchFull : DebugTaskDefinition :=
  ⟨.launch ⟨"main.py", ["-x"], [("K", "V")], some "/proj"⟩, some false, none⟩

/-- A delegate with an active toolchain registration and an installed
adapter directory. -/
def delegateSample : DapDelegate :=
  ⟨some "/venv/bin/python", fun _ => none, ["Debugpy_v1.0.0"], "/adapters"⟩

/-- A delegate with no toolchain and nothing on the search path. -/
def delegateBare : DapDelegate :=
  ⟨none, fun _ => none, ["Debugpy_v1.0.0"], "/adapters"⟩

/-- A delegate with no toolchain where only the candidate name `py`
resolves on the search path. -/
def delegatePyOnly : DapDelegate :=
  ⟨none, fun cmd => if cmd = "py" then some "/usr/bin/py" else none,
   ["Debugpy_v1.0.0"], "/adapters"⟩

/-- A delegate whose adapters root holds no installed directory. -/
def delegateEmptyDir : DapDelegate :=
  ⟨none, fun _ => none, [], "/adapters"⟩

/-- A check environment where fetch and install both succeed. -/
def envOk : CheckEnv := ⟨.ok ⟨"v1", "url"⟩, fun _ => .ok ()⟩

/-- A check environment where the version fetch fails. -/
def envFetchFails : CheckEnv := ⟨.error "network down", fun _ => .ok ()⟩

/-- A check environment where the fetch succeeds and the install
fails (e.g. a corrupt archive during extraction). -/
def envInstallFails : CheckEnv := ⟨.ok ⟨"v1", "url"⟩, fun _ => .error "extraction failed"⟩

/-- The descriptor produced by resolving `cfgAttachSample` against
`delegateSample`. -/
def binSample : DebugAdapterBinary :=
  { command := "/venv/bin/python",
    arguments := [pathJoin (pathJoin (pathJoin "/adapters" ADAPTER_NAME) "Debugpy_v1.0.0")
        ADAPTER_PATH,
      "--port=" ++ toString DEFAULT_PORT, "--host=" ++ DEFAULT_HOST],
    connection := some ⟨DEFAULT_HOST, DEFAULT_PORT, DEFAULT_TIMEOUT⟩,
    cwd := none, envs := [],
    request_args := request_args cfgAttachSample }

/-! Helper lemmas shared by the claim theorems. -/

/-- The result of `get_binary` is the propagated install failure when
the check pass blocks, and the `get_installed_binary` result
otherwise. -/
theorem get_binary_result_eq (self : PythonDebugAdapter) (env : CheckEnv) (d : DapDelegate)
    (cfg : DebugTaskDefinition) (up : Option String) :
    (get_binary self env d cfg up).result
      = match checkBlocks self env with
        | some e => .error e
        | none => get_installed_binary d cfg up := by
  unfold get_binary checkBlocks
  cases h : self.checked <;> simp
  cases hf : env.fetchResult with
  | error e => simp
  | ok v => cases hi : env.installResult v <;> simp [hi]

/-- Every `get_binary` call leaves the flag set, and emits the console
message exactly when it found the flag unset. -/
theorem get_binary_state (self : PythonDebugAdapter) (env : CheckEnv) (d : DapDelegate)
    (cfg : DebugTaskDefinition) (up : Option String) :
    (get_binary self env d cfg up).adapter = { checked := true }
    ∧ (get_binary self env d cfg up).console.length = if self.checked then 0 else 1 := by
  obtain ⟨c⟩ := self
  unfold get_binary
  cases c with
  | true => simp
  | false =>
    simp only [Bool.false_eq_true, if_false]
    cases hf : env.fetchResult with
    | error e => simp
    | ok v => cases hi : env.installResult v <;> simp [hi]

/-- On a checked instance, no sequence of calls ever runs the pass. -/
theorem runCalls_checked (calls : List CallInput) :
    runCalls ⟨true⟩ calls = (if calls.isEmpty then ⟨true⟩ else ⟨true⟩, 0) := by
  induction calls with
  | nil => simp [runCalls]
  | cons c rest ih =>
    have hs := get_binary_state ⟨true⟩ c.env c.delegate c.config c.userPath
    simp [runCalls, hs.1, ih, hs.2]

/-! Claim theorems. -/

/-- Claim C1, counterexample: the claim that every failure of the
check-and-install pass (version fetch failure or install failure) is
caught and never propagated is false on the code — on a fresh
instance, when the fetch succeeds and the install fails, `get_binary`
returns that install error even though a resolution against the
existing install would have succeeded. -/
theorem C1_counterexample :
    (get_binary {} envInstallFails delegateSample cfgAttachSample none).result
        = .error (.install "extraction failed")
    ∧ ∃ b, get_installed_binary delegateSample cfgAttachSample none = .ok b := by
  exact ⟨rfl, ⟨_, rfl⟩⟩

/-- Claim C1, amended: during the one-time check, a version-fetch
failure is logged (the console message is still the only output) and
swallowed — `get_binary` proceeds to resolve against whatever is
installed; an install failure after a successful fetch, however, is
propagated to the caller as the result of `get_binary`. -/
theorem C1_fetch_swallowed_install_propagated
    (env : CheckEnv) (d : DapDelegate) (cfg : DebugTaskDefinition) (up : Option String) :
    (∀ msg, env.fetchResult = .error msg →
      (get_binary {} env d cfg up).result = get_installed_binary d cfg up
      ∧ (get_binary {} env d cfg up).console.length = 1)
    ∧ (∀ v msg, env.fetchResult = .ok v → env.installResult v = .error msg →
      (get_binary {} env d cfg up).result = .error (.install msg)) := by
  constructor
  · intro msg hf
    unfold get_binary
    simp [hf, show ({} : PythonDebugAdapter).checked = false from rfl]
  · intro v msg hf hi
    unfold get_binary
    simp [hf, hi, show ({} : PythonDebugAdapter).checked = false from rfl]

/-- Claim C1, witness: the amended claim at concrete inputs — a fetch
failure leaves the result equal to the plain resolution, an install
failure is surfaced as the result. -/
theorem C1_witness :
    ((get_binary {} envFetchFails delegateSample cfgAttachSample none).result
        = get_installed_binary delegateSample cfgAttachSample none)
    ∧ ((get_binary {} envInstallFails delegateSample cfgAttachSample none).result
        = .error (.install "extraction failed")) :=
  ⟨((C1_fetch_swallowed_install_propagated envFetchFails delegateSample cfgAttachSample
      none).1 "network down" rfl).1,
   (C1_fetch_swallowed_install_propagated envInstallFails delegateSample cfgAttachSample
      none).2 ⟨"v1", "url"⟩ "extraction failed" rfl rfl⟩

/-- Claim C2: the write-once flag starts unset on a fresh instance;
the first `get_binary` call sets it and runs the check pass (one
console message); a call on a checked instance leaves the state
untouched, emits nothing and goes straight to resolution; and over any
sequence of calls on a fresh instance the pass executes exactly once
when the sequence is non-empty, zero times when it is empty. -/
theorem C2_once (c : CallInput) (calls : List CallInput) :
    (({} : PythonDebugAdapter).checked = false)
    ∧ (get_binary {} c.env c.delegate c.config c.userPath).adapter.checked = true
    ∧ (get_binary {} c.env c.delegate c.config c.userPath).console.length = 1
    ∧ (get_binary ⟨true⟩ c.env c.delegate c.config c.userPath).adapter = ⟨true⟩
    ∧ (get_binary ⟨true⟩ c.env c.delegate c.config c.userPath).console = []
    ∧ (get_binary ⟨true⟩ c.env c.delegate c.config c.userPath).result
        = get_installed_binary c.delegate c.config c.userPath
    ∧ (runCalls {} calls).2 = if calls.isEmpty then 0 else 1 := by
  refine ⟨rfl, ?_, ?_, ?_, ?_, ?_, ?_⟩
  · exact (get_binary_state {} c.env c.delegate c.config c.userPath).1 ▸ rfl
  · simpa using (get_binary_state {} c.env c.delegate c.config c.userPath).2
  · exact (get_binary_state ⟨true⟩ c.env c.delegate c.config c.userPath).1
  · have := (get_binary_state ⟨true⟩ c.env c.delegate c.config c.userPath).2
    simpa using List.length_eq_zero.mp (by simpa using this)
  · simp [get_binary]
  · cases calls with
    | nil => simp [runCalls]
    | cons c0 rest =>
      have hs := get_binary_state {} c0.env c0.delegate c0.config c0.userPath
      simp [runCalls, hs.1, runCalls_checked rest, hs.2]

/-- Claim C3: for every launch task the built payload contains the
program and the argument list unconditionally; an `env` key exactly
when the environment is non-empty; a `stopOnEntry` key exactly when
stop-on-entry was explicitly set, carrying the set value (a set
`false` is literally `false`); and a `cwd` key exactly when a working
directory is specified. -/
theorem C3_launch_payload (l : LaunchRequest) (soe : Option Bool)
    (tcp : Option TcpArgumentsTemplate) :
    ((request_args ⟨.launch l, soe, tcp⟩).configuration.getKey "program"
        = some (.str l.program))
    ∧ ((request_args ⟨.launch l, soe, tcp⟩).configuration.getKey "args"
        = some (.arr (l.args.map .str)))
    ∧ ((request_args ⟨.launch l, soe, tcp⟩).configuration.getKey "env"
        = if l.env.isEmpty then none else some l.env_json)
    ∧ ((request_args ⟨.launch l, soe, tcp⟩).configuration.getKey "stopOnEntry"
        = soe.map Json.bool)
    ∧ ((request_args ⟨.launch l, soe, tcp⟩).configuration.getKey "cwd"
        = l.cwd.map Json.str) := by
  obtain ⟨prog, args, env, cwd⟩ := l
  cases env <;> cases soe <;> cases cwd <;>
    simp [request_args, Json.insertKey, insertPairs, Json.getKey, List.find?,
      LaunchRequest.env_json, List.isEmpty]

/-- Claim C4: for every attach task the payload discriminant is
`"attach"`, the payload carries `processId` equal to the task's
process id and no `program` or `args` keys; and for every task of
either mode the payload carries `subProcess = true` and
`redirectOutput = true`. -/
theorem C4_attach_payload (a : AttachRequest) (soe : Option Bool)
    (tcp : Option TcpArgumentsTemplate) :
    ((request_args ⟨.attach a, soe, tcp⟩).configuration.getKey "request"
        = some (.str "attach"))
    ∧ ((request_args ⟨.attach a, soe, tcp⟩).request = .attach)
    ∧ ((request_args ⟨.attach a, soe, tcp⟩).configuration.getKey "processId"
        = some (.nat a.process_id))
    ∧ ((request_args ⟨.attach a, soe, tcp⟩).configuration.getKey "program" = none)
    ∧ ((request_args ⟨.attach a, soe, tcp⟩).configuration.getKey "args" = none)
    ∧ (∀ cfg : DebugTaskDefinition,
        (request_args cfg).configuration.getKey "subProcess" = some (.bool true)
        ∧ (request_args cfg).configuration.getKey "redirectOutput" = some (.bool true)) := by
  refine ⟨?_, ?_, ?_, ?_, ?_, ?_⟩
  · simp [request_args, Json.insertKey, insertPairs, Json.getKey, List.find?]
  · simp [request_args, DebugRequest.to_dap]
  · simp [request_args, Json.insertKey, insertPairs, Json.getKey, List.find?]
  · simp [request_args, Json.insertKey, insertPairs, Json.getKey, List.find?]
  · simp [request_args, Json.insertKey, insertPairs, Json.getKey, List.find?]
  · intro cfg
    obtain ⟨req, soe', tcp'⟩ := cfg
    cases req with
    | attach a' =>
      simp [request_args, Json.insertKey, insertPairs, Json.getKey, List.find?]
    | launch l' =>
      obtain ⟨prog, args, env, cwd⟩ := l'
      cases env <;> cases soe' <;> cases cwd <;>
        simp [request_args, Json.insertKey, insertPairs, Json.getKey, List.find?,
          LaunchRequest.env_json, List.isEmpty]

/-- Claim C5: a registered toolchain path is used verbatim (for every
search-path content), otherwise the candidates are probed via `which`
in exactly the order `python3`, `python`, `py` with the first hit
winning; and every successful resolution's command is exactly this
selection. -/
theorem C5_interpreter_priority (d : DapDelegate) :
    (∀ t, d.toolchain = some t → resolvePython d = some t)
    ∧ (d.toolchain = none →
        resolvePython d =
          match d.which "python3" with
          | some p => some p
          | none =>
            match d.which "python" with
            | some p => some p
            | none => d.which "py")
    ∧ (∀ (cfg : DebugTaskDefinition) (up : Option String) (b : DebugAdapterBinary),
        get_installed_binary d cfg up = .ok b → resolvePython d = some b.command) := by
  refine ⟨?_, ?_, ?_⟩
  · intro t ht
    simp [resolvePython, ht]
  · intro ht
    simp only [resolvePython, ht, findBinaryInPath, BINARY_NAMES]
    cases d.which "python3" <;> cases d.which "python" <;> cases d.which "py" <;> simp
  · intro cfg up b hok
    unfold get_installed_binary at hok
    cases up with
    | some p =>
      simp only at hok
      cases hr : resolvePython d with
      | none => rw [hr] at hok; exact absurd hok (by simp)
      | some command => rw [hr] at hok; cases hok; rfl
    | none =>
      cases hf : find_file_name_in_dir d.adapterDirEntries
          (fun file_name => startsWithStr file_name (ADAPTER_NAME ++ "_")) with
      | none => rw [hf] at hok; exact absurd hok (by simp)
      | some nm =>
        rw [hf] at hok
        simp only at hok
        cases hr : resolvePython d with
        | none => rw [hr] at hok; exact absurd hok (by simp)
        | some command => rw [hr] at hok; cases hok; rfl

/-- Claim C5, witness: the toolchain path wins on `delegateSample`;
on `delegatePyOnly` the ordered probe runs; and a concrete successful
resolution's command is the selected interpreter. -/
theorem C5_witness :
    (resolvePython delegateSample = some "/venv/bin/python")
    ∧ (resolvePython delegatePyOnly =
        match delegatePyOnly.which "python3" with
        | some p => some p
        | none =>
          match delegatePyOnly.which "python" with
          | some p => some p
          | none => delegatePyOnly.which "py")
    ∧ (resolvePython delegateSample = some binSample.command) :=
  ⟨(C5_interpreter_priority delegateSample).1 "/venv/bin/python" rfl,
   (C5_interpreter_priority delegatePyOnly).2.1 rfl,
   (C5_interpreter_priority delegateSample).2.2 cfgAttachSample none binSample rfl⟩

/-- Claim C6: every successful resolution's descriptor has the
resolved interpreter as its command, its arguments are exactly the
adapter entrypoint (the installed directory joined with the fixed
relative subpath) followed by the `--port=` and `--host=` flags built
from the negotiated parameters, and those parameters are stored in
the connection field. -/
theorem C6_descriptor_shape (d : DapDelegate) (cfg : DebugTaskDefinition)
    (up : Option String) (b : DebugAdapterBinary) :
    get_installed_binary d cfg up = .ok b →
    (resolvePython d = some b.command)
    ∧ (∃ dir,
        b.arguments = [pathJoin dir ADAPTER_PATH,
          "--port=" ++ toString
            (configure_tcp_connection (cfg.tcp_connection.getD TcpArgumentsTemplate.default)).2.1,
          "--host=" ++
            (configure_tcp_connection (cfg.tcp_connection.getD TcpArgumentsTemplate.default)).1]
        ∧ (up = some dir
           ∨ (up = none ∧ ∃ nm,
               find_file_name_in_dir d.adapterDirEntries
                   (fun file_name => startsWithStr file_name (ADAPTER_NAME ++ "_")) = some nm
               ∧ dir = pathJoin (pathJoin d.debugAdaptersDir ADAPTER_NAME) nm)))
    ∧ b.connection = some
        ⟨(configure_tcp_connection (cfg.tcp_connection.getD TcpArgumentsTemplate.default)).1,
         (configure_tcp_connection (cfg.tcp_connection.getD TcpArgumentsTemplate.default)).2.1,
         (configure_tcp_connection (cfg.tcp_connection.getD TcpArgumentsTemplate.default)).2.2⟩ := by
  intro hok
  unfold get_installed_binary at hok
  cases up with
  | some p =>
    simp only at hok
    cases hr : resolvePython d with
    | none => rw [hr] at hok; exact absurd hok (by simp)
    | some command =>
      rw [hr] at hok
      cases hok
      exact ⟨rfl, ⟨p, rfl, Or.inl rfl⟩, rfl⟩
  | none =>
    cases hf : find_file_name_in_dir d.adapterDirEntries
        (fun file_name => startsWithStr file_name (ADAPTER_NAME ++ "_")) with
    | none => rw [hf] at hok; exact absurd hok (by simp)
    | some nm =>
      rw [hf] at hok
      simp only at hok
      cases hr : resolvePython d with
      | none => rw [hr] at hok; exact absurd hok (by simp)
      | some command =>
        rw [hr] at hok
        cases hok
        exact ⟨rfl, ⟨_, rfl, Or.inr ⟨rfl, nm, rfl, rfl⟩⟩, rfl⟩

/-- Claim C6, witness: the descriptor shape at a concrete successful
resolution (scanned installed directory, default connection). -/
theorem C6_witness :
    (resolvePython delegateSample = some binSample.command)
    ∧ (∃ dir,
        binSample.arguments = [pathJoin dir ADAPTER_PATH,
          "--port=" ++ toString
            (configure_tcp_connection
              (cfgAttachSample.tcp_connection.getD TcpArgumentsTemplate.default)).2.1,
          "--host=" ++
            (configure_tcp_connection
              (cfgAttachSample.tcp_connection.getD TcpArgumentsTemplate.default)).1]
        ∧ ((none : Option String) = some dir
           ∨ ((none : Option String) = none ∧ ∃ nm,
               find_file_name_in_dir delegateSample.adapterDirEntries
                   (fun file_name => startsWithStr file_name (ADAPTER_NAME ++ "_")) = some nm
               ∧ dir = pathJoin (pathJoin delegateSample.debugAdaptersDir ADAPTER_NAME) nm)))
    ∧ binSample.connection = some
        ⟨(configure_tcp_connection
            (cfgAttachSample.tcp_connection.getD TcpArgumentsTemplate.default)).1,
         (configure_tcp_connection
            (cfgAttachSample.tcp_connection.getD TcpArgumentsTemplate.default)).2.1,
         (configure_tcp_connection
            (cfgAttachSample.tcp_connection.getD TcpArgumentsTemplate.default)).2.2⟩ :=
  C6_descriptor_shape delegateSample cfgAttachSample none binSample rfl

/-- Claim C7: when the check pass does not block, the toolchain
registry yields nothing and all three candidate names fail to resolve,
`get_binary` terminates with the interpreter-not-found error (provided
an installed directory exists or an explicit path was supplied, so
that the earlier not-installed error does not fire first). -/
theorem C7_interpreter_not_found (self : PythonDebugAdapter) (env : CheckEnv)
    (d : DapDelegate) (cfg : DebugTaskDefinition) (up : Option String) :
    checkBlocks self env = none →
    d.toolchain = none →
    d.which "python3" = none → d.which "python" = none → d.which "py" = none →
    (up.isSome = true
      ∨ (find_file_name_in_dir d.adapterDirEntries
          (fun file_name => startsWithStr file_name (ADAPTER_NAME ++ "_"))).isSome = true) →
    (get_binary self env d cfg up).result = .error .interpreterNotFound := by
  intro hcb ht h3 hp hy hdir
  rw [get_binary_result_eq, hcb]
  have hr : resolvePython d = none := by
    simp [resolvePython, ht, findBinaryInPath, BINARY_NAMES, h3, hp, hy]
  unfold get_installed_binary
  cases up with
  | some p => simp [hr]
  | none =>
    rcases hdir with h | h
    · simp at h
    · rcases Option.isSome_iff_exists.mp h with ⟨nm, hnm⟩
      simp [hnm, hr]

/-- Claim C7, witness: on a delegate with no toolchain and an empty
search path (adapter installed, fetch failing so the check pass is
harmless), `get_binary` returns the interpreter-not-found error. -/
theorem C7_witness :
    (get_binary {} envFetchFails delegateBare cfgAttachSample none).result
      = .error .interpreterNotFound :=
  C7_interpreter_not_found {} envFetchFails delegateBare cfgAttachSample none
    rfl rfl rfl rfl rfl (Or.inr rfl)

/-- Claim C8: when the extracted version directory consists of a
single nested directory whose name carries the vendor distribution
string, normalization leaves exactly that directory's former contents
as the direct entries; when no entry carries the vendor string, the
tree is left untouched. -/
theorem C8_layout_normalization (n : String) (cs entries : List FsEntry) :
    (startsWithStr n "microsoft-debugpy-" = true →
      install_binary_normalize [FsEntry.dir n cs] = cs)
    ∧ (findEntryInDir entries (fun m => startsWithStr m "microsoft-debugpy-") = none →
      install_binary_normalize entries = entries) := by
  constructor
  · intro hn
    simp [install_binary_normalize, findEntryInDir, List.find?, FsEntry.name, hn,
      move_folder_files_to_folder, FsEntry.children, List.filter, bne_self_eq_false]
  · intro hnone
    simp [install_binary_normalize, hnone]

/-- Claim C8, witness: a concrete wrapped archive is flattened and a
concrete unwrapped one is untouched. -/
theorem C8_witness :
    (install_binary_normalize
        [FsEntry.dir "microsoft-debugpy-1.8.16" [FsEntry.file "setup.py"]]
      = [FsEntry.file "setup.py"])
    ∧ (install_binary_normalize [FsEntry.file "adapter.py"]
      = [FsEntry.file "adapter.py"]) :=
  ⟨(C8_layout_normalization "microsoft-debugpy-1.8.16" [FsEntry.file "setup.py"] []).1
      (by decide),
   (C8_layout_normalization "" [] [FsEntry.file "adapter.py"]).2 rfl⟩

/-- Claim C9: the connection negotiation is total defaulting logic, so
the only errors a resolution can terminate with are the
directory-not-found and interpreter-not-found ones — none originates
from negotiation. -/
theorem C9_no_negotiation_error (d : DapDelegate) (cfg : DebugTaskDefinition)
    (up : Option String) (e : AdapterError) :
    get_installed_binary d cfg up = .error e →
    e = .notInstalled ∨ e = .interpreterNotFound := by
  intro herr
  unfold get_installed_binary at herr
  cases up with
  | some p =>
    simp only at herr
    cases hr : resolvePython d with
    | none => rw [hr] at herr; cases herr; exact Or.inr rfl
    | some command => rw [hr] at herr; exact absurd herr (by simp)
  | none =>
    cases hf : find_file_name_in_dir d.adapterDirEntries
        (fun file_name => startsWithStr file_name (ADAPTER_NAME ++ "_")) with
    | none => rw [hf] at herr; cases herr; exact Or.inl rfl
    | some nm =>
      rw [hf] at herr
      simp only at herr
      cases hr : resolvePython d with
      | none => rw [hr] at herr; cases herr; exact Or.inr rfl
      | some command => rw [hr] at herr; exact absurd herr (by simp)

/-- Claim C9, witness: the two resolution failures that do occur are
in the allowed set. -/
theorem C9_witness :
    (AdapterError.notInstalled = .notInstalled
      ∨ AdapterError.notInstalled = .interpreterNotFound)
    ∧ (AdapterError.interpreterNotFound = .notInstalled
      ∨ AdapterError.interpreterNotFound = .interpreterNotFound) :=
  ⟨C9_no_negotiation_error delegateEmptyDir cfgAttachSample none _ rfl,
   C9_no_negotiation_error delegateBare cfgAttachSample none _ rfl⟩

/-- Claim C10: every successful `get_binary` call returns a descriptor
with no working directory, an empty environment mapping and a present
connection field, for every task definition; the task's own cwd and
environment reach only the request-arguments payload. -/
theorem C10_descriptor_constants (self : PythonDebugAdapter) (env : CheckEnv)
    (d : DapDelegate) (cfg : DebugTaskDefinition) (up : Option String)
    (b : DebugAdapterBinary) :
    (get_binary self env d cfg up).result = .ok b →
    b.cwd = none ∧ b.envs = [] ∧ b.connection.isSome = true
    ∧ b.request_args = request_args cfg := by
  intro hok
  rw [get_binary_result_eq] at hok
  rcases hcb : checkBlocks self env with _ | e
  · rw [hcb] at hok
    simp only at hok
    unfold get_installed_binary at hok
    cases up with
    | some p =>
      simp only at hok
      cases hr : resolvePython d with
      | none => rw [hr] at hok; exact absurd hok (by simp)
      | some command => rw [hr] at hok; cases hok; exact ⟨rfl, rfl, rfl, rfl⟩
    | none =>
      cases hf : find_file_name_in_dir d.adapterDirEntries
          (fun file_name => startsWithStr file_name (ADAPTER_NAME ++ "_")) with
      | none => rw [hf] at hok; exact absurd hok (by simp)
      | some nm =>
        rw [hf] at hok
        simp only at hok
        cases hr : resolvePython d with
        | none => rw [hr] at hok; exact absurd hok (by simp)
        | some command => rw [hr] at hok; cases hok; exact ⟨rfl, rfl, rfl, rfl⟩
  · rw [hcb] at hok
    exact absurd hok (by simp)

/-- Claim C10, witness: a concrete successful call on a launch task
that does specify a cwd and a non-empty environment still yields a
descriptor with no cwd and empty envs. -/
theorem C10_witness :
    ∃ b, (get_binary {} envOk delegateSample cfgLaunchFull none).result = .ok b
      ∧ (b.cwd = none ∧ b.envs = [] ∧ b.connection.isSome = true
          ∧ b.request_args = request_args cfgLaunchFull) :=
  ⟨_, rfl, C10_descriptor_constants {} envOk delegateSample cfgLaunchFull none _ rfl⟩

end PyDap
